import Mathlib

/-!
Shallow embedding of the authentication / OTP-verification subsystem of the
TempMailX backend (Express + Supabase).

Embedded source files:
* `src/utils/otpService.js`  — the two in-memory OTP ledgers (password reset
  and signup) with store / verify / isVerified / clear operations;
* `src/models/User.js`       — the user credential store backed by a table
  with `UNIQUE(email)` and `UNIQUE(google_id)` (see `src/config/schema.sql`);
* `src/controllers/authController.js` — the HTTP-level flows: direct signup,
  OTP-gated signup (request + verify), login, forgot / verify / reset
  password;
* the Google OAuth verify callback from `src/server.js`.

Modelling conventions: time is a natural number of milliseconds (`Date.now()`),
`Math.random`-generated OTP codes and mail-dispatch success are inputs,
JavaScript `Map`s become function maps `String → Option α`, and bcrypt is the
usual symbolic hash (injective constructor on strings, compare checks equality
with the hash of the candidate).
-/

/-! ## JavaScript string primitives -/

/-- Lower-casing of a single character, ASCII range (mirrors
`Char.toLower`, restated over `Nat` so the kernel can evaluate it). -/
def charLower (c : Char) : Char :=
  if 65 ≤ c.toNat ∧ c.toNat ≤ 90 then Char.ofNat (c.toNat + 32) else c

/-- JS `String.prototype.toLowerCase` (ASCII behaviour). -/
def jsLower (s : String) : String := ⟨s.data.map charLower⟩

/-- JS `String.prototype.trim`: drop whitespace from both ends. -/
def jsTrim (s : String) : String :=
  ⟨((s.data.dropWhile Char.isWhitespace).reverse.dropWhile Char.isWhitespace).reverse⟩

/-- The expression `email.toLowerCase().trim()` used throughout the
controllers and the user model as the canonical lookup key. -/
def canonEmail (e : String) : String := jsTrim (jsLower e)

/-- JS `email.split('@')[0]`: the prefix before the first `@`. -/
def emailLocalPart (email : String) : String :=
  ⟨email.data.takeWhile (fun c => !(c == '@'))⟩

/-- JS `name?.trim() || email.split('@')[0]`: an absent or
whitespace-only name falls back to the local part of the email. -/
def defaultName (name : Option String) (email : String) : String :=
  match name with
  | some n => if jsTrim n == "" then emailLocalPart email else jsTrim n
  | none => emailLocalPart email

/-- Symbolic model of `bcrypt.hash(password, salt)`: a marker prefix makes the
hash injective in the password and distinct from every plaintext. -/
def bcryptHash (password : String) : String := "$2b$10$" ++ password

/-- Symbolic model of `bcrypt.compare(password, hash)`: true exactly when the
hash is the hash of the candidate password. -/
def bcryptCompare (password hash : String) : Bool := hash == bcryptHash password

/-- A thrown JS `Error`. Errors produced by `new Error(message)` carry no
`code` property, which the model records as `code = none`; only a raw driver
error would carry one. -/
structure JsError where
  message : String
  code : Option Nat := none
deriving Repr, DecidableEq

/-! ## Function maps standing for JS `Map` objects -/

/-- A JS `Map` with string keys, modelled extensionally. -/
def OtpMap (α : Type) : Type := String → Option α

namespace OtpMap

/-- The empty map (a fresh `new Map()`). -/
def empty {α : Type} : OtpMap α := fun _ => none

/-- JS `map.set(k, v)` (insert or overwrite). -/
def set {α : Type} (m : OtpMap α) (k : String) (v : α) : OtpMap α :=
  fun q => if q = k then some v else m q

/-- JS `map.delete(k)`. -/
def del {α : Type} (m : OtpMap α) (k : String) : OtpMap α :=
  fun q => if q = k then none else m q

/-- JS `map.get(k)`. -/
def get {α : Type} (m : OtpMap α) (k : String) : Option α := m k

end OtpMap

/-! ## OTP ledgers (`src/utils/otpService.js`) -/

/-- A record of the password-reset ledger (`otpStore`). The JS object has no
`verified` field until a successful verification sets it, so the model gives
the field default `false`. -/
structure ResetRecord where
  otp : String
  expiryTime : Nat
  attempts : Nat
  verified : Bool := false
deriving Repr, DecidableEq

/-- The pending user payload stored alongside a signup OTP: canonical email,
already-hashed password, resolved display name. -/
structure PendingUser where
  email : String
  password : String
  name : String
deriving Repr, DecidableEq

/-- A record of the signup ledger (`signupOtpStore`). -/
structure SignupRecord where
  otp : String
  userData : PendingUser
  expiryTime : Nat
  attempts : Nat
deriving Repr, DecidableEq

/-- The `{success, message, userData?}` object returned by the verify
operations of the OTP service. -/
structure VerifyResult where
  success : Bool
  message : String
  userData : Option PendingUser := none
deriving Repr, DecidableEq

namespace OtpService

/-- `storeOTP(email, otp, expiryMinutes = 10)`: keys by `email.toLowerCase()`
(no trim), absolute expiry `now + expiryMinutes * 60 * 1000`, attempts 0. -/
def storeOTP (m : OtpMap ResetRecord) (email otp : String) (now : Nat)
    (expiryMinutes : Nat := 10) : OtpMap ResetRecord :=
  m.set (jsLower email)
    { otp := otp, expiryTime := now + expiryMinutes * 60 * 1000, attempts := 0 }

/-- `storeSignupOTP(email, otp, userData, expiryMinutes = 10)`. -/
def storeSignupOTP (m : OtpMap SignupRecord) (email otp : String)
    (userData : PendingUser) (now : Nat) (expiryMinutes : Nat := 10) :
    OtpMap SignupRecord :=
  m.set (jsLower email)
    { otp := otp, userData := userData,
      expiryTime := now + expiryMinutes * 60 * 1000, attempts := 0 }

/-- `verifyOTP(email, otp)` on the reset ledger; returns the JS result object
together with the ledger after the call (the JS code mutates `otpStore`). -/
def verifyOTP (m : OtpMap ResetRecord) (email otp : String) (now : Nat) :
    VerifyResult × OtpMap ResetRecord :=
  let emailKey := jsLower email
  match m.get emailKey with
  | none =>
      ({ success := false, message := "No OTP found. Please request a new one." }, m)
  | some stored =>
      if stored.expiryTime < now then
        ({ success := false, message := "OTP has expired. Please request a new one." },
          m.del emailKey)
      else if 5 ≤ stored.attempts then
        ({ success := false, message := "Too many failed attempts. Please request a new OTP." },
          m.del emailKey)
      else if stored.otp == otp then
        ({ success := true, message := "OTP verified successfully" },
          m.set emailKey { stored with verified := true })
      else
        ({ success := false,
           message := "Invalid OTP. " ++ toString (5 - (stored.attempts + 1)) ++ " attempts remaining." },
          m.set emailKey { stored with attempts := stored.attempts + 1 })

/-- `verifySignupOTP(email, otp)` on the signup ledger; on a match it returns
the pending payload and leaves the record untouched (cleared only later by the
caller). -/
def verifySignupOTP (m : OtpMap SignupRecord) (email otp : String) (now : Nat) :
    VerifyResult × OtpMap SignupRecord :=
  let emailKey := jsLower email
  match m.get emailKey with
  | none =>
      ({ success := false, message := "No OTP found. Please request a new one." }, m)
  | some stored =>
      if stored.expiryTime < now then
        ({ success := false, message := "OTP has expired. Please request a new one." },
          m.del emailKey)
      else if 5 ≤ stored.attempts then
        ({ success := false, message := "Too many failed attempts. Please request a new OTP." },
          m.del emailKey)
      else if stored.otp == otp then
        ({ success := true, message := "OTP verified successfully",
           userData := some stored.userData }, m)
      else
        ({ success := false,
           message := "Invalid OTP. " ++ toString (5 - (stored.attempts + 1)) ++ " attempts remaining." },
          m.set emailKey { stored with attempts := stored.attempts + 1 })

/-- `isOTPVerified(email)`: a reset record exists, is marked verified, and
`Date.now() <= expiryTime`. -/
def isOTPVerified (m : OtpMap ResetRecord) (email : String) (now : Nat) : Bool :=
  match m.get (jsLower email) with
  | none => false
  | some stored => stored.verified && decide (now ≤ stored.expiryTime)

/-- `clearOTP(email)`. -/
def clearOTP (m : OtpMap ResetRecord) (email : String) : OtpMap ResetRecord :=
  m.del (jsLower email)

/-- `clearSignupOTP(email)`. -/
def clearSignupOTP (m : OtpMap SignupRecord) (email : String) : OtpMap SignupRecord :=
  m.del (jsLower email)

end OtpService

/-! ## User credential store (`src/models/User.js` over `schema.sql`) -/

/-- A row of the `users` table. -/
structure UserRec where
  id : Nat
  email : String
  password : Option String
  name : String
  googleId : Option String
deriving Repr, DecidableEq

/-- The `users` table plus the id sequence. -/
structure UserDb where
  users : List UserRec
  nextId : Nat
deriving Repr, DecidableEq

/-- The argument object of `User.create({email, password, name, googleId})`. -/
structure CreateParams where
  email : String
  password : Option String := none
  name : Option String := none
  googleId : Option String := none
deriving Repr, DecidableEq

/-- The argument object of `User.update(id, updates)`; the code only ever
passes `password` or `google_id`. -/
structure UpdateParams where
  password : Option String := none
  googleId : Option String := none
deriving Repr, DecidableEq

namespace User

/-- `User.findByEmail(email)`: select by `email.toLowerCase().trim()`. -/
def findByEmail (db : UserDb) (email : String) : Option UserRec :=
  db.users.find? (fun u => u.email == canonEmail email)

/-- `User.findById(id)`. -/
def findById (db : UserDb) (id : Nat) : Option UserRec :=
  db.users.find? (fun u => u.id == id)

/-- `User.findByGoogleId(googleId)`. -/
def findByGoogleId (db : UserDb) (googleId : String) : Option UserRec :=
  db.users.find? (fun u => u.googleId == some googleId)

/-- `User.create`: hashes the password when one is provided (a truthy, i.e.
nonempty, string), canonicalizes the email, defaults the name, and inserts.
The store enforces `UNIQUE(email)` and `UNIQUE(google_id)`; on violation the
model wraps the failure, as the JS `catch` does with
`new Error('Failed to create user: ...')`, into an error with no `code`. -/
def create (db : UserDb) (p : CreateParams) : Except JsError (UserDb × UserRec) :=
  let hashedPassword : Option String :=
    match p.password with
    | some pw => if pw == "" then none else some (bcryptHash pw)
    | none => none
  let insertedEmail := canonEmail p.email
  if (db.users.find? (fun u => u.email == insertedEmail)).isSome then
    .error { message := "Failed to create user: duplicate key value violates unique constraint" }
  else if p.googleId.isSome &&
      (db.users.find? (fun u => u.googleId == p.googleId)).isSome then
    .error { message := "Failed to create user: duplicate key value violates unique constraint" }
  else
    let user : UserRec :=
      { id := db.nextId, email := insertedEmail, password := hashedPassword,
        name := defaultName p.name p.email, googleId := p.googleId }
    .ok ({ users := db.users ++ [user], nextId := db.nextId + 1 }, user)

/-- `User.verifyPassword(email, password)`: fetch by canonical email; fail on
a missing user or a null password column; otherwise `bcrypt.compare`. -/
def verifyPassword (db : UserDb) (email password : String) : Option UserRec :=
  match db.users.find? (fun u => u.email == canonEmail email) with
  | none => none
  | some user =>
      match user.password with
      | none => none
      | some h => if bcryptCompare password h then some user else none

/-- Application of a (post-hashing) `updates` object to a row. -/
def applyUpdate (u : UserRec) (upd : UpdateParams) : UserRec :=
  { u with
    password := match upd.password with | some p => some p | none => u.password,
    googleId := match upd.googleId with | some g => some g | none => u.googleId }

/-- `User.update(id, updates)`: hashes `updates.password` when present, then
updates the row with the given id; a missing row or a `google_id` uniqueness
violation surfaces as a wrapped error with no `code`. -/
def update (db : UserDb) (id : Nat) (upd : UpdateParams) :
    Except JsError (UserDb × UserRec) :=
  let upd' : UpdateParams :=
    { upd with
      password := match upd.password with
        | some pw => if pw == "" then some pw else some (bcryptHash pw)
        | none => none }
  match db.users.find? (fun u => u.id == id) with
  | none => .error { message := "Failed to update user: row not found" }
  | some u =>
      if upd'.googleId.isSome &&
          (db.users.find? (fun v => v.googleId == upd'.googleId && !(v.id == id))).isSome then
        .error { message := "Failed to update user: duplicate key value violates unique constraint" }
      else
        let u' := applyUpdate u upd'
        .ok ({ db with users := db.users.map (fun v => if v.id == id then u' else v) }, u')

/-- `User.updatePassword(id, newPassword)`. -/
def updatePassword (db : UserDb) (id : Nat) (newPassword : String) :
    Except JsError (UserDb × UserRec) :=
  update db id { password := some newPassword }

end User

/-! ## Token issuance (`src/utils/tokenManager.js`) and the HTTP surface -/

/-- The payload `{userId, email}` signed into a JWT. -/
structure TokenPayload where
  userId : Nat
  email : String
deriving Repr, DecidableEq

/-- `generateToken(payload)`: signing is opaque to this core, so a token is
identified with its payload. -/
def generateToken (payload : TokenPayload) : TokenPayload := payload

/-- The JSON body and status code produced by a controller. -/
structure ApiResponse where
  status : Nat
  success : Bool
  message : String
  warning : Option String := none
  token : Option TokenPayload := none
  userId : Option Nat := none
deriving Repr, DecidableEq

/-- The mutable state a request can touch: the users table and the two
process-wide OTP ledgers. -/
structure AuthState where
  db : UserDb
  resetOtps : OtpMap ResetRecord
  signupOtps : OtpMap SignupRecord

/-! ## Authentication controllers (`src/controllers/authController.js`)

Nondeterministic inputs of a request are passed explicitly: `now` is
`Date.now()`, `otp` is the freshly generated code (`generateOTP()` returns a
random 6-digit string), and `mailOk` tells whether the mail collaborator's
dispatch promise resolved or rejected. -/

namespace AuthController

/-- `POST /auth/signup` (direct signup). -/
def signup (st : AuthState) (email password : String) (name : Option String) :
    AuthState × ApiResponse :=
  match User.findByEmail st.db email with
  | some _ =>
      (st, { status := 409, success := false,
             message := "User with this email already exists" })
  | none =>
      match User.create st.db
          { email := canonEmail email, password := some password,
            name := name.map jsTrim } with
      | .ok (db', user) =>
          ({ st with db := db' },
           { status := 201, success := true,
             message := "User registered successfully",
             token := some (generateToken { userId := user.id, email := user.email }),
             userId := some user.id })
      | .error e =>
          if e.code == some 11000 then
            (st, { status := 409, success := false,
                   message := "User with this email already exists" })
          else
            (st, { status := 500, success := false,
                   message := "Failed to register user" })

/-- `POST /auth/signup/request-otp`: hash up front, store the pending payload
with the code in the signup ledger, then try to dispatch the mail; a dispatch
failure still answers 200 with a `warning` field. -/
def requestSignupOTP (st : AuthState) (email password : String)
    (name : Option String) (otp : String) (mailOk : Bool) (now : Nat) :
    AuthState × ApiResponse :=
  if email == "" || password == "" then
    (st, { status := 400, success := false,
           message := "Email and password are required" })
  else
    match User.findByEmail st.db (canonEmail email) with
    | some _ =>
        (st, { status := 409, success := false,
               message := "User with this email already exists" })
    | none =>
        let hashedPassword := bcryptHash password
        let userData : PendingUser :=
          { email := canonEmail email, password := hashedPassword,
            name := defaultName name email }
        let st' := { st with
          signupOtps := OtpService.storeSignupOTP st.signupOtps email otp userData now 10 }
        if mailOk then
          (st', { status := 200, success := true,
                  message := "Verification code has been sent to your email address. Please check your inbox." })
        else
          (st', { status := 200, success := true,
                  message := "Verification code generated. Note: Email service is currently unavailable. Please check server logs for your verification code or contact support.",
                  warning := some "Email delivery failed - check server logs" })

/-- `POST /auth/signup/verify-otp`: check the code, then create the account
from the pending payload (`User.create` receives the already-hashed password
in the `password` field), issue a token, clear the signup record. A creation
failure leaves the ledger untouched; only an error whose `code` is `11000`
would map to 409. -/
def verifySignupOTP (st : AuthState) (email otp : String) (now : Nat) :
    AuthState × ApiResponse :=
  if email == "" || otp == "" then
    (st, { status := 400, success := false, message := "Email and OTP are required" })
  else
    match OtpService.verifySignupOTP st.signupOtps (canonEmail email) otp now with
    | (result, signupOtps') =>
      let st' := { st with signupOtps := signupOtps' }
      if result.success then
        match result.userData with
        | some userData =>
            match User.create st'.db
                { email := userData.email, password := some userData.password,
                  name := some userData.name } with
            | .ok (db', user) =>
                ({ st' with
                     db := db',
                     signupOtps := OtpService.clearSignupOTP st'.signupOtps email },
                 { status := 201, success := true,
                   message := "Account created successfully",
                   token := some (generateToken { userId := user.id, email := user.email }),
                   userId := some user.id })
            | .error e =>
                if e.code == some 11000 then
                  (st', { status := 409, success := false,
                          message := "User with this email already exists" })
                else
                  (st', { status := 500, success := false,
                          message := "Failed to create account. Please try again." })
        | none =>
            (st', { status := 500, success := false,
                    message := "An error occurred while verifying OTP" })
      else
        (st', { status := 400, success := false, message := result.message })

/-- `POST /auth/login`. -/
def login (st : AuthState) (email password : String) : AuthState × ApiResponse :=
  match User.verifyPassword st.db (canonEmail email) password with
  | none =>
      (st, { status := 401, success := false, message := "Invalid email or password" })
  | some user =>
      (st, { status := 200, success := true, message := "Login successful",
             token := some (generateToken { userId := user.id, email := user.email }),
             userId := some user.id })

/-- `POST /auth/forgot-password`: for an unknown email answer 200 without
touching the ledger; otherwise store the OTP (keyed by the raw email
lower-cased) and dispatch, degrading gracefully on mail failure. -/
def forgotPassword (st : AuthState) (email : String) (otp : String)
    (mailOk : Bool) (now : Nat) : AuthState × ApiResponse :=
  if email == "" then
    (st, { status := 400, success := false, message := "Email is required" })
  else
    match User.findByEmail st.db (canonEmail email) with
    | none =>
        (st, { status := 200, success := true,
               message := "If an account exists with this email, you will receive an OTP shortly." })
    | some _ =>
        let st' := { st with resetOtps := OtpService.storeOTP st.resetOtps email otp now 10 }
        if mailOk then
          (st', { status := 200, success := true,
                  message := "OTP has been sent to your email address. Please check your inbox." })
        else
          (st', { status := 200, success := true,
                  message := "OTP generated. Note: Email service is currently unavailable. Please check server logs for your OTP or contact support.",
                  warning := some "Email delivery failed - check server logs" })

/-- `POST /auth/verify-otp` (reset flow). -/
def verifyOTP (st : AuthState) (email otp : String) (now : Nat) :
    AuthState × ApiResponse :=
  if email == "" || otp == "" then
    (st, { status := 400, success := false, message := "Email and OTP are required" })
  else
    match OtpService.verifyOTP st.resetOtps (canonEmail email) otp now with
    | (result, resetOtps') =>
      ({ st with resetOtps := resetOtps' },
       if result.success then
         { status := 200, success := true, message := result.message }
       else
         { status := 400, success := false, message := result.message })

/-- `POST /auth/reset-password`: gate on `isOTPVerified`, re-hash and persist
the new password, then clear the reset record (with the raw email, lower-cased
but not trimmed). -/
def resetPassword (st : AuthState) (email newPassword : String) (now : Nat) :
    AuthState × ApiResponse :=
  if email == "" || newPassword == "" then
    (st, { status := 400, success := false,
           message := "Email and new password are required" })
  else if !(OtpService.isOTPVerified st.resetOtps (canonEmail email) now) then
    (st, { status := 403, success := false,
           message := "Please verify OTP before resetting password" })
  else
    match User.findByEmail st.db (canonEmail email) with
    | none =>
        (st, { status := 404, success := false, message := "User not found" })
    | some user =>
        match User.updatePassword st.db user.id newPassword with
        | .error _ =>
            (st, { status := 500, success := false,
                   message := "An error occurred while resetting password" })
        | .ok (db', _) =>
            ({ st with db := db', resetOtps := OtpService.clearOTP st.resetOtps email },
             { status := 200, success := true,
               message := "Password has been reset successfully. You can now login with your new password." })

end AuthController

/-! ## Google OAuth verify callback (`src/server.js`) -/

/-- The fields of the external profile the callback reads. -/
structure GoogleProfile where
  id : String
  email : String
  displayName : String
deriving Repr, DecidableEq

/-- The `GoogleStrategy` verify callback: resolve by `google_id`, else by
email (linking the id onto the found record and re-fetching it), else create
a passwordless user. Returns `done(error)` or `done(null, user)`. -/
def googleVerify (db : UserDb) (p : GoogleProfile) :
    Except JsError (UserDb × Option UserRec) :=
  match User.findByGoogleId db p.id with
  | some user => .ok (db, some user)
  | none =>
      match User.findByEmail db p.email with
      | some user =>
          match User.update db user.id { googleId := some p.id } with
          | .error e => .error e
          | .ok (db', _) => .ok (db', User.findById db' user.id)
      | none =>
          match User.create db
              { email := p.email, name := some p.displayName,
                googleId := some p.id } with
          | .error e => .error e
          | .ok (db', user) => .ok (db', some user)

/-! ## Concrete fixtures used by scenario theorems -/

/-- A registered password account. -/
def userA : UserRec :=
  { id := 1, email := "a@x.com", password := some (bcryptHash "oldpw"),
    name := "a", googleId := none }

/-- A one-user database. -/
def dbA : UserDb := { users := [userA], nextId := 2 }

/-- The state of a freshly started process: empty users table, empty ledgers. -/
def emptyState : AuthState :=
  { db := { users := [], nextId := 1 }, resetOtps := OtpMap.empty,
    signupOtps := OtpMap.empty }

/-- A state with one registered password account and empty ledgers. -/
def stateA : AuthState :=
  { db := dbA, resetOtps := OtpMap.empty, signupOtps := OtpMap.empty }

/-- The state after a signup-OTP request for a fresh address (code `123456`,
mail dispatched at time 0). -/
def stateAfterSignupRequest : AuthState :=
  (AuthController.requestSignupOTP emptyState "a@x.com" "pw123456" none
    "123456" true 0).1

/-- The state after `stateAfterSignupRequest` where a direct signup for the
same address completed first (the duplicate-at-creation race). -/
def stateSignupRace : AuthState :=
  (AuthController.signup stateAfterSignupRequest "a@x.com" "otherpw" none).1

/-- The state after a forgot-password request for the registered account
followed by a successful reset-OTP verification. -/
def stateResetVerified : AuthState :=
  (AuthController.verifyOTP
    (AuthController.forgotPassword stateA "a@x.com" "123456" true 0).1
    "a@x.com" "123456" 0).1

/-- A state where a signup OTP is pending for an address that is already
registered (the create-time duplicate situation). -/
def stateDupPending : AuthState :=
  { db := dbA, resetOtps := OtpMap.empty,
    signupOtps := OtpMap.empty.set "a@x.com"
      { otp := "123456",
        userData := { email := "a@x.com", password := bcryptHash "pw123456", name := "a" },
        expiryTime := 600000, attempts := 0 } }

/-! ## Map and list helper lemmas -/

theorem OtpMap.get_set {α : Type} (m : OtpMap α) (k q : String) (v : α) :
    (m.set k v).get q = if q = k then some v else m.get q := rfl

theorem OtpMap.get_del {α : Type} (m : OtpMap α) (k q : String) :
    (m.del k).get q = if q = k then none else m.get q := rfl

/-- Rewriting every row with a given id to a fixed row commutes with lookup
by that id. -/
theorem findUpdateById (l : List UserRec) (i : Nat) (u' : UserRec)
    (hid : u'.id = i)
    (hsome : (l.find? (fun v => v.id == i)).isSome) :
    (l.map (fun v => if v.id == i then u' else v)).find? (fun v => v.id == i) =
      some u' := by
  induction l with
  | nil => simp at hsome
  | cons a l ih =>
      by_cases ha : a.id = i
      · simp [ha, hid]
      · have hfa : (if a.id == i then u' else a) = a := by simp [ha]
        simp only [List.map_cons, hfa, List.find?_cons] at hsome ⊢
        simp only [show (a.id == i) = false by simp [ha]] at hsome ⊢
        exact ih hsome

/-- Evaluation of `Char.ofNat` at a valid code point. -/
theorem toNat_charOfNat {n : Nat} (h : n.isValidChar) : (Char.ofNat n).toNat = n := by
  simp [Char.ofNat, h, Char.ofNatAux, Char.toNat, UInt32.toNat, BitVec.toNat_ofNatLt]

/-- Characters are determined by their code point. -/
theorem char_eq_iff_toNat {c d : Char} : c = d ↔ c.toNat = d.toNat :=
  ⟨fun h => by rw [h], fun h => Char.ext (UInt32.toNat.inj h)⟩

/-- Whitespace restated as a test on the code point. -/
theorem isWhitespace_toNat (c : Char) :
    c.isWhitespace = (decide (c.toNat = 32) || decide (c.toNat = 9) ||
      decide (c.toNat = 13) || decide (c.toNat = 10)) := by
  simp only [Char.isWhitespace, char_eq_iff_toNat]
  rfl

/-- Characters at or beyond code point 33 are not whitespace. -/
theorem isWhitespace_eq_false_of_ge (c : Char) (h : 33 ≤ c.toNat) :
    c.isWhitespace = false := by
  rw [isWhitespace_toNat]
  rw [decide_eq_false (by omega : ¬ c.toNat = 32), decide_eq_false (by omega : ¬ c.toNat = 9),
    decide_eq_false (by omega : ¬ c.toNat = 13), decide_eq_false (by omega : ¬ c.toNat = 10)]
  rfl

/-- Lower-casing leaves a character outside the upper-case range unchanged. -/
theorem charLower_eq_self (c : Char) (h : ¬ (65 ≤ c.toNat ∧ c.toNat ≤ 90)) :
    charLower c = c := by
  simp [charLower, h]

/-- Lower-casing shifts an upper-case code point by 32. -/
theorem charLower_toNat_of_upper (c : Char) (h : 65 ≤ c.toNat ∧ c.toNat ≤ 90) :
    (charLower c).toNat = c.toNat + 32 := by
  have hv : (c.toNat + 32).isValidChar := Or.inl (by omega)
  simp [charLower, h, toNat_charOfNat hv]

/-- Lower-casing preserves whether a character is whitespace. -/
theorem charLower_isWhitespace (c : Char) :
    (charLower c).isWhitespace = c.isWhitespace := by
  by_cases h : 65 ≤ c.toNat ∧ c.toNat ≤ 90
  · rw [isWhitespace_eq_false_of_ge c (by omega),
      isWhitespace_eq_false_of_ge (charLower c) (by rw [charLower_toNat_of_upper c h]; omega)]
  · rw [charLower_eq_self c h]

/-- Lower-casing a character is idempotent. -/
theorem charLower_idem (c : Char) : charLower (charLower c) = charLower c := by
  by_cases h : 65 ≤ c.toNat ∧ c.toNat ≤ 90
  · exact charLower_eq_self (charLower c)
      (by rw [charLower_toNat_of_upper c h]; omega)
  · rw [charLower_eq_self c h, charLower_eq_self c h]

/-- Lower-casing a string is idempotent. -/
theorem jsLower_idem (s : String) : jsLower (jsLower s) = jsLower s := by
  simp [jsLower, List.map_map, Function.comp_def, charLower_idem]

/-- List form of the trim / lower-case commutation. -/
theorem trimList_map (l : List Char) :
    (((l.map charLower).dropWhile Char.isWhitespace).reverse.dropWhile
        Char.isWhitespace).reverse =
    (((l.dropWhile Char.isWhitespace).reverse.dropWhile
        Char.isWhitespace).reverse).map charLower := by
  have hp : (Char.isWhitespace ∘ charLower) = Char.isWhitespace :=
    funext charLower_isWhitespace
  rw [List.dropWhile_map, hp, ← List.map_reverse, List.dropWhile_map, hp, ← List.map_reverse]

/-- Trimming commutes with lower-casing. -/
theorem jsTrim_jsLower (s : String) : jsTrim (jsLower s) = jsLower (jsTrim s) :=
  congrArg String.mk (trimList_map s.data)

/-! ## Claims -/

/-- Claim C3: for every unexpired OTP record (reset or signup ledger) with
`attempts < 5`, verify with a non-matching code increments `attempts` by one,
keeps the record, and fails with a message reporting `5 - attempts` remaining
tries; once `attempts` has reached 5, any further verify for that email —
even with the correct code — fails with the too-many-attempts message and
deletes the record. -/
theorem C3_attempt_counting_and_cap :
    (∀ (m : OtpMap ResetRecord) (email code : String) (now : Nat) (r : ResetRecord),
      m.get (jsLower email) = some r → now ≤ r.expiryTime → r.attempts < 5 →
      code ≠ r.otp →
        (OtpService.verifyOTP m email code now).1.success = false ∧
        (OtpService.verifyOTP m email code now).1.message =
          "Invalid OTP. " ++ toString (5 - (r.attempts + 1)) ++ " attempts remaining." ∧
        (OtpService.verifyOTP m email code now).2.get (jsLower email) =
          some { r with attempts := r.attempts + 1 }) ∧
    (∀ (m : OtpMap ResetRecord) (email code : String) (now : Nat) (r : ResetRecord),
      m.get (jsLower email) = some r → now ≤ r.expiryTime → 5 ≤ r.attempts →
        (OtpService.verifyOTP m email code now).1 =
          { success := false,
            message := "Too many failed attempts. Please request a new OTP." } ∧
        (OtpService.verifyOTP m email code now).2.get (jsLower email) = none) ∧
    (∀ (m : OtpMap SignupRecord) (email code : String) (now : Nat) (r : SignupRecord),
      m.get (jsLower email) = some r → now ≤ r.expiryTime → r.attempts < 5 →
      code ≠ r.otp →
        (OtpService.verifySignupOTP m email code now).1.success = false ∧
        (OtpService.verifySignupOTP m email code now).1.message =
          "Invalid OTP. " ++ toString (5 - (r.attempts + 1)) ++ " attempts remaining." ∧
        (OtpService.verifySignupOTP m email code now).2.get (jsLower email) =
          some { r with attempts := r.attempts + 1 }) ∧
    (∀ (m : OtpMap SignupRecord) (email code : String) (now : Nat) (r : SignupRecord),
      m.get (jsLower email) = some r → now ≤ r.expiryTime → 5 ≤ r.attempts →
        (OtpService.verifySignupOTP m email code now).1 =
          { success := false,
            message := "Too many failed attempts. Please request a new OTP." } ∧
        (OtpService.verifySignupOTP m email code now).2.get (jsLower email) = none) := by
  refine ⟨?_, ?_, ?_, ?_⟩
  · intro m email code now r h hexp hatt hcode
    have h0 : m (jsLower email) = some r := h
    have h1 : ¬ r.expiryTime < now := not_lt.mpr hexp
    have h2 : ¬ 5 ≤ r.attempts := not_le.mpr hatt
    have h3 : ¬ r.otp = code := fun e => hcode e.symm
    simp [OtpService.verifyOTP, OtpMap.get, OtpMap.set, h0, h1, h2, h3]
  · intro m email code now r h hexp hatt
    have h0 : m (jsLower email) = some r := h
    have h1 : ¬ r.expiryTime < now := not_lt.mpr hexp
    simp [OtpService.verifyOTP, OtpMap.get, OtpMap.del, h0, h1, hatt]
  · intro m email code now r h hexp hatt hcode
    have h0 : m (jsLower email) = some r := h
    have h1 : ¬ r.expiryTime < now := not_lt.mpr hexp
    have h2 : ¬ 5 ≤ r.attempts := not_le.mpr hatt
    have h3 : ¬ r.otp = code := fun e => hcode e.symm
    simp [OtpService.verifySignupOTP, OtpMap.get, OtpMap.set, h0, h1, h2, h3]
  · intro m email code now r h hexp hatt
    have h0 : m (jsLower email) = some r := h
    have h1 : ¬ r.expiryTime < now := not_lt.mpr hexp
    simp [OtpService.verifySignupOTP, OtpMap.get, OtpMap.del, h0, h1, hatt]

/-- Witness for C3 at concrete inputs: a record with 2 failed attempts and a
wrong code answers "2 attempts remaining" and bumps the counter; a record
with 5 attempts is deleted even on the correct code. -/
theorem C3_attempt_counting_and_cap_witness :
    ((OtpService.verifyOTP (OtpMap.empty.set "a@x.com"
        { otp := "111111", expiryTime := 1000, attempts := 2 }) "a@x.com" "000000" 500).1.message =
      "Invalid OTP. 2 attempts remaining." ∧
     (OtpService.verifyOTP (OtpMap.empty.set "a@x.com"
        { otp := "111111", expiryTime := 1000, attempts := 2 }) "a@x.com" "000000" 500).2.get "a@x.com" =
      some { otp := "111111", expiryTime := 1000, attempts := 3 }) ∧
    ((OtpService.verifyOTP (OtpMap.empty.set "a@x.com"
        { otp := "111111", expiryTime := 1000, attempts := 5 }) "a@x.com" "111111" 500).1.message =
      "Too many failed attempts. Please request a new OTP." ∧
     (OtpService.verifyOTP (OtpMap.empty.set "a@x.com"
        { otp := "111111", expiryTime := 1000, attempts := 5 }) "a@x.com" "111111" 500).2.get "a@x.com" = none) := by
  constructor
  · have h := C3_attempt_counting_and_cap.1 (OtpMap.empty.set "a@x.com"
      { otp := "111111", expiryTime := 1000, attempts := 2 }) "a@x.com" "000000" 500
      { otp := "111111", expiryTime := 1000, attempts := 2 }
      (by decide) (by decide) (by decide) (by decide)
    exact ⟨h.2.1, h.2.2⟩
  · have h := C3_attempt_counting_and_cap.2.1 (OtpMap.empty.set "a@x.com"
      { otp := "111111", expiryTime := 1000, attempts := 5 }) "a@x.com" "111111" 500
      { otp := "111111", expiryTime := 1000, attempts := 5 }
      (by decide) (by decide) (by decide)
    exact ⟨by rw [h.1], h.2⟩

/-- Claim C6: for every stored OTP record in either ledger, calling verify at
a time strictly after `expiresAt` deletes the record and fails with the
expiry message, regardless of the submitted code and the attempt count. -/
theorem C6_expiry_check_first :
    (∀ (m : OtpMap ResetRecord) (email code : String) (now : Nat) (r : ResetRecord),
      m.get (jsLower email) = some r → r.expiryTime < now →
        (OtpService.verifyOTP m email code now).1 =
          { success := false, message := "OTP has expired. Please request a new one." } ∧
        (OtpService.verifyOTP m email code now).2.get (jsLower email) = none) ∧
    (∀ (m : OtpMap SignupRecord) (email code : String) (now : Nat) (r : SignupRecord),
      m.get (jsLower email) = some r → r.expiryTime < now →
        (OtpService.verifySignupOTP m email code now).1 =
          { success := false, message := "OTP has expired. Please request a new one." } ∧
        (OtpService.verifySignupOTP m email code now).2.get (jsLower email) = none) := by
  constructor
  · intro m email code now r h hexp
    have h0 : m (jsLower email) = some r := h
    simp [OtpService.verifyOTP, OtpMap.get, OtpMap.del, h0, hexp]
  · intro m email code now r h hexp
    have h0 : m (jsLower email) = some r := h
    simp [OtpService.verifySignupOTP, OtpMap.get, OtpMap.del, h0, hexp]

/-- Witness for C6: an expired record (even with the matching code and a
clean attempt counter) is evicted with the expiry message, in both ledgers. -/
theorem C6_expiry_check_first_witness :
    ((OtpService.verifyOTP (OtpMap.empty.set "a@x.com"
        { otp := "111111", expiryTime := 1000, attempts := 0 }) "a@x.com" "111111" 1001).1.message =
      "OTP has expired. Please request a new one." ∧
     (OtpService.verifyOTP (OtpMap.empty.set "a@x.com"
        { otp := "111111", expiryTime := 1000, attempts := 0 }) "a@x.com" "111111" 1001).2.get "a@x.com" = none) ∧
    ((OtpService.verifySignupOTP (OtpMap.empty.set "a@x.com"
        { otp := "222222", userData := { email := "a@x.com", password := "h", name := "a" },
          expiryTime := 42, attempts := 4 }) "a@x.com" "222222" 43).1.message =
      "OTP has expired. Please request a new one." ∧
     (OtpService.verifySignupOTP (OtpMap.empty.set "a@x.com"
        { otp := "222222", userData := { email := "a@x.com", password := "h", name := "a" },
          expiryTime := 42, attempts := 4 }) "a@x.com" "222222" 43).2.get "a@x.com" = none) := by
  constructor
  · have h := C6_expiry_check_first.1 (OtpMap.empty.set "a@x.com"
      { otp := "111111", expiryTime := 1000, attempts := 0 }) "a@x.com" "111111" 1001
      { otp := "111111", expiryTime := 1000, attempts := 0 } (by decide) (by decide)
    exact ⟨by rw [h.1], h.2⟩
  · have h := C6_expiry_check_first.2 (OtpMap.empty.set "a@x.com"
      { otp := "222222", userData := { email := "a@x.com", password := "h", name := "a" },
        expiryTime := 42, attempts := 4 }) "a@x.com" "222222" 43
      { otp := "222222", userData := { email := "a@x.com", password := "h", name := "a" },
        expiryTime := 42, attempts := 4 } (by decide) (by decide)
    exact ⟨by rw [h.1], h.2⟩

/-- Claim C9 is refuted at a whitespace variant: the ledgers key by
`email.toLowerCase()` without trimming, so a store under `" a@x.com"`
followed by a verify under `"a@x.com"` does not locate the record (which is
still present under the untrimmed key). -/
theorem C9_counterexample :
    (OtpService.verifyOTP (OtpService.storeOTP OtpMap.empty " a@x.com" "123456" 0 10)
        "a@x.com" "123456" 0).1 =
      { success := false, message := "No OTP found. Please request a new one." } ∧
    (OtpService.storeOTP OtpMap.empty " a@x.com" "123456" 0 10).get " a@x.com" =
      some { otp := "123456", expiryTime := 600000, attempts := 0 } := by decide

/-- Claim C9 amended: both ledgers key records by the lower-cased — but not
trimmed — email: store followed by verify (or clear) using any variant of the
same address differing only in letter case locates (or deletes) the same
record; variants differing in leading/trailing whitespace are distinct keys. -/
theorem C9_lowercase_keying :
    (∀ (m : OtpMap ResetRecord) (e₁ e₂ code : String) (now ttl now₂ : Nat),
      jsLower e₁ = jsLower e₂ → now₂ ≤ now + ttl * 60 * 1000 →
        (OtpService.verifyOTP (OtpService.storeOTP m e₁ code now ttl) e₂ code now₂).1.success = true) ∧
    (∀ (m : OtpMap ResetRecord) (e₁ e₂ code : String) (now ttl : Nat),
      jsLower e₁ = jsLower e₂ →
        (OtpService.clearOTP (OtpService.storeOTP m e₁ code now ttl) e₂).get (jsLower e₁) = none) ∧
    (∀ (m : OtpMap SignupRecord) (e₁ e₂ code : String) (ud : PendingUser) (now ttl now₂ : Nat),
      jsLower e₁ = jsLower e₂ → now₂ ≤ now + ttl * 60 * 1000 →
        (OtpService.verifySignupOTP (OtpService.storeSignupOTP m e₁ code ud now ttl) e₂ code now₂).1.success = true) ∧
    (∀ (m : OtpMap SignupRecord) (e₁ e₂ code : String) (ud : PendingUser) (now ttl : Nat),
      jsLower e₁ = jsLower e₂ →
        (OtpService.clearSignupOTP (OtpService.storeSignupOTP m e₁ code ud now ttl) e₂).get (jsLower e₁) = none) := by
  refine ⟨?_, ?_, ?_, ?_⟩
  · intro m e₁ e₂ code now ttl now₂ hkey hnow
    have h1 : ¬ now + ttl * 60 * 1000 < now₂ := not_lt.mpr hnow
    simp [OtpService.verifyOTP, OtpService.storeOTP, OtpMap.get, OtpMap.set, ← hkey, h1]
  · intro m e₁ e₂ code now ttl hkey
    simp [OtpService.clearOTP, OtpService.storeOTP, OtpMap.get, OtpMap.set, OtpMap.del, hkey]
  · intro m e₁ e₂ code ud now ttl now₂ hkey hnow
    have h1 : ¬ now + ttl * 60 * 1000 < now₂ := not_lt.mpr hnow
    simp [OtpService.verifySignupOTP, OtpService.storeSignupOTP, OtpMap.get, OtpMap.set, ← hkey, h1]
  · intro m e₁ e₂ code ud now ttl hkey
    simp [OtpService.clearSignupOTP, OtpService.storeSignupOTP, OtpMap.get, OtpMap.set, OtpMap.del, hkey]

/-- Witness for the amended C9 at case variants of the same address. -/
theorem C9_lowercase_keying_witness :
    (OtpService.verifyOTP (OtpService.storeOTP OtpMap.empty "A@X.com" "123456" 0 10)
        "a@x.com" "123456" 1000).1.success = true ∧
    (OtpService.clearOTP (OtpService.storeOTP OtpMap.empty "A@X.com" "123456" 0 10)
        "a@x.com").get (jsLower "A@X.com") = none ∧
    (OtpService.verifySignupOTP (OtpService.storeSignupOTP OtpMap.empty "A@X.com" "123456"
        { email := "a@x.com", password := "h", name := "a" } 0 10)
        "a@x.com" "123456" 1000).1.success = true ∧
    (OtpService.clearSignupOTP (OtpService.storeSignupOTP OtpMap.empty "A@X.com" "123456"
        { email := "a@x.com", password := "h", name := "a" } 0 10)
        "a@x.com").get (jsLower "A@X.com") = none := by
  refine ⟨?_, ?_, ?_, ?_⟩
  · exact C9_lowercase_keying.1 OtpMap.empty "A@X.com" "a@x.com" "123456" 0 10 1000
      (by decide) (by decide)
  · exact C9_lowercase_keying.2.1 OtpMap.empty "A@X.com" "a@x.com" "123456" 0 10 (by decide)
  · exact C9_lowercase_keying.2.2.1 OtpMap.empty "A@X.com" "a@x.com" "123456"
      { email := "a@x.com", password := "h", name := "a" } 0 10 1000 (by decide) (by decide)
  · exact C9_lowercase_keying.2.2.2 OtpMap.empty "A@X.com" "a@x.com" "123456"
      { email := "a@x.com", password := "h", name := "a" } 0 10 (by decide)

/-- Claim C1 (refuted by the code; evaluation at the failing input): the
OTP-verify completion passes the already-hashed password to `User.create`,
which unconditionally re-hashes any provided password, so the stored value is
a hash of the hash and a subsequent login with the original plaintext fails
with 401 instead of succeeding. -/
theorem C1_double_hash_code_evaluation :
    (AuthController.verifySignupOTP stateAfterSignupRequest "a@x.com" "123456" 500).2.status = 201 ∧
    ((User.findByEmail (AuthController.verifySignupOTP stateAfterSignupRequest
        "a@x.com" "123456" 500).1.db "a@x.com").map (fun u => u.password)) =
      some (some (bcryptHash (bcryptHash "pw123456"))) ∧
    (AuthController.login (AuthController.verifySignupOTP stateAfterSignupRequest
        "a@x.com" "123456" 500).1 "a@x.com" "pw123456").2 =
      { status := 401, success := false, message := "Invalid email or password" } := by
  decide

/-- Claim C2 is refuted on its message-identity component: the unknown-email
answer is the fixed anti-enumeration text, which differs from the
registered-user answer, so the two responses are distinguishable. -/
theorem C2_counterexample :
    (AuthController.forgotPassword stateA "ghost@x.com" "111111" true 0).2.success = true ∧
    (AuthController.forgotPassword stateA "ghost@x.com" "111111" true 0).2.message ≠
      (AuthController.forgotPassword stateA "a@x.com" "111111" true 0).2.message := by
  decide

/-- Claim C2 amended: a forgot-password request for an email with no
registered user answers 200 / success=true with the fixed text "If an
account exists with this email, you will receive an OTP shortly." and leaves
the reset ledger untouched; the message is however not identical to the
registered-user success message. -/
theorem C2_unknown_email_no_ledger_entry (st : AuthState) (email otp : String)
    (mailOk : Bool) (now : Nat) (hne : ¬ email = "")
    (hnone : User.findByEmail st.db (canonEmail email) = none) :
    (AuthController.forgotPassword st email otp mailOk now).2.success = true ∧
    (AuthController.forgotPassword st email otp mailOk now).2.status = 200 ∧
    (AuthController.forgotPassword st email otp mailOk now).2.message =
      "If an account exists with this email, you will receive an OTP shortly." ∧
    (AuthController.forgotPassword st email otp mailOk now).1.resetOtps = st.resetOtps ∧
    (AuthController.forgotPassword st email otp mailOk now).2.message ≠
      "OTP has been sent to your email address. Please check your inbox." := by
  have hb : (email == "") = false := by simp [hne]
  simp [AuthController.forgotPassword, hb, hnone]

/-- Witness for the amended C2 at a concrete unknown address over a one-user
database. -/
theorem C2_unknown_email_no_ledger_entry_witness :
    (AuthController.forgotPassword stateA "ghost@x.com" "222222" false 7).2.success = true ∧
    (AuthController.forgotPassword stateA "ghost@x.com" "222222" false 7).2.status = 200 ∧
    (AuthController.forgotPassword stateA "ghost@x.com" "222222" false 7).2.message =
      "If an account exists with this email, you will receive an OTP shortly." ∧
    (AuthController.forgotPassword stateA "ghost@x.com" "222222" false 7).1.resetOtps = stateA.resetOtps ∧
    (AuthController.forgotPassword stateA "ghost@x.com" "222222" false 7).2.message ≠
      "OTP has been sent to your email address. Please check your inbox." :=
  C2_unknown_email_no_ledger_entry stateA "ghost@x.com" "222222" false 7
    (by decide) (by decide)

/-- Claim C4 (refuted by the code; evaluation at the failing input): the
pre-check paths do answer 409, but when the duplicate only surfaces at
creation time — here, a direct signup completed between the OTP request and
its verification — the verify path answers 500, because `User.create` wraps
the store error in a plain `Error` (no `code` property), so the
`error.code === 11000` duplicate branch never fires. -/
theorem C4_creation_time_duplicate_is_500 :
    (AuthController.signup stateAfterSignupRequest "a@x.com" "otherpw" none).2.status = 201 ∧
    (AuthController.signup stateSignupRace "a@x.com" "thirdpw" none).2.status = 409 ∧
    (AuthController.requestSignupOTP stateSignupRace "a@x.com" "pw" none "222222" true 0).2.status = 409 ∧
    (AuthController.verifySignupOTP stateSignupRace "a@x.com" "123456" 500).2.status = 500 := by
  decide

/-- Claim C8: when mail dispatch fails during a signup-OTP request or a
forgot-password request, the response still reports success=true (status
200) with the warning flag set, and the OTP record is stored in the
corresponding ledger — the dispatch failure is never a user-facing error. -/
theorem C8_mail_failure_degrades_gracefully :
    (∀ (st : AuthState) (email password : String) (name : Option String)
        (otp : String) (now : Nat),
      ¬ email = "" → ¬ password = "" →
      User.findByEmail st.db (canonEmail email) = none →
        (AuthController.requestSignupOTP st email password name otp false now).2.success = true ∧
        (AuthController.requestSignupOTP st email password name otp false now).2.status = 200 ∧
        (AuthController.requestSignupOTP st email password name otp false now).2.warning =
          some "Email delivery failed - check server logs" ∧
        (AuthController.requestSignupOTP st email password name otp false now).1.signupOtps.get
            (jsLower email) =
          some { otp := otp,
                 userData := { email := canonEmail email, password := bcryptHash password,
                               name := defaultName name email },
                 expiryTime := now + 10 * 60 * 1000, attempts := 0 }) ∧
    (∀ (st : AuthState) (email otp : String) (now : Nat) (u : UserRec),
      ¬ email = "" →
      User.findByEmail st.db (canonEmail email) = some u →
        (AuthController.forgotPassword st email otp false now).2.success = true ∧
        (AuthController.forgotPassword st email otp false now).2.status = 200 ∧
        (AuthController.forgotPassword st email otp false now).2.warning =
          some "Email delivery failed - check server logs" ∧
        (AuthController.forgotPassword st email otp false now).1.resetOtps.get (jsLower email) =
          some { otp := otp, expiryTime := now + 10 * 60 * 1000, attempts := 0 }) := by
  constructor
  · intro st email password name otp now he hp hnone
    have hb : (email == "") = false := by simp [he]
    have hbp : (password == "") = false := by simp [hp]
    simp [AuthController.requestSignupOTP, hb, hbp, hnone,
      OtpService.storeSignupOTP, OtpMap.get, OtpMap.set]
  · intro st email otp now u he hsome
    have hb : (email == "") = false := by simp [he]
    simp [AuthController.forgotPassword, hb, hsome,
      OtpService.storeOTP, OtpMap.get, OtpMap.set]

/-- Witness for C8: concrete mail-failure requests on both endpoints. -/
theorem C8_mail_failure_degrades_gracefully_witness :
    ((AuthController.requestSignupOTP emptyState "b@x.com" "pw123456" none "333333" false 5).2.success = true ∧
     (AuthController.requestSignupOTP emptyState "b@x.com" "pw123456" none "333333" false 5).2.warning =
       some "Email delivery failed - check server logs" ∧
     (AuthController.requestSignupOTP emptyState "b@x.com" "pw123456" none "333333" false 5).1.signupOtps.get
         "b@x.com" =
       some { otp := "333333",
              userData := { email := "b@x.com", password := bcryptHash "pw123456", name := "b" },
              expiryTime := 5 + 10 * 60 * 1000, attempts := 0 }) ∧
    ((AuthController.forgotPassword stateA "a@x.com" "444444" false 9).2.success = true ∧
     (AuthController.forgotPassword stateA "a@x.com" "444444" false 9).2.warning =
       some "Email delivery failed - check server logs" ∧
     (AuthController.forgotPassword stateA "a@x.com" "444444" false 9).1.resetOtps.get "a@x.com" =
       some { otp := "444444", expiryTime := 9 + 10 * 60 * 1000, attempts := 0 }) := by
  constructor
  · have h := C8_mail_failure_degrades_gracefully.1 emptyState "b@x.com" "pw123456" none
      "333333" 5 (by decide) (by decide) (by decide)
    refine ⟨h.1, h.2.2.1, ?_⟩
    have h4 := h.2.2.2
    simp only [show jsLower "b@x.com" = "b@x.com" by decide] at h4
    rw [h4]
    decide
  · have h := C8_mail_failure_degrades_gracefully.2 stateA "a@x.com" "444444" 9 userA
      (by decide) (by decide)
    refine ⟨h.1, h.2.2.1, ?_⟩
    have h4 := h.2.2.2
    simp only [show jsLower "a@x.com" = "a@x.com" by decide] at h4
    rw [h4]

/-- Claim C10: when the account creation fails after a successful signup-OTP
code match (the credential store rejecting a duplicate email), the signup
ledger record is left unchanged — not cleared, attempts not incremented —
and the database is untouched, so the same email and code can be resubmitted
while the record is unexpired. -/
theorem C10_create_failure_preserves_signup_record
    (st : AuthState) (email otp : String) (now : Nat) (r : SignupRecord)
    (he : ¬ email = "") (ho : ¬ otp = "")
    (hrec : st.signupOtps.get (jsLower (canonEmail email)) = some r)
    (hexp : now ≤ r.expiryTime) (hatt : r.attempts < 5) (hcode : r.otp = otp)
    (hdup : (st.db.users.find? (fun u => u.email == canonEmail r.userData.email)).isSome) :
    (AuthController.verifySignupOTP st email otp now).2.status = 500 ∧
    (AuthController.verifySignupOTP st email otp now).2.success = false ∧
    (AuthController.verifySignupOTP st email otp now).1.signupOtps = st.signupOtps ∧
    (AuthController.verifySignupOTP st email otp now).1.db = st.db := by
  have hb : (email == "") = false := by simp [he]
  have hbo : (otp == "") = false := by simp [ho]
  have h0 : st.signupOtps (jsLower (canonEmail email)) = some r := hrec
  have h1 : ¬ r.expiryTime < now := not_lt.mpr hexp
  have h2 : ¬ 5 ≤ r.attempts := not_le.mpr hatt
  simp [AuthController.verifySignupOTP, OtpService.verifySignupOTP, OtpMap.get,
    hb, hbo, h0, h1, h2, hcode, User.create, hdup]

/-- Witness for C10: a pending signup OTP for an address that is already
registered; verification with the matching code answers 500 and leaves the
ledger and the database exactly as they were. -/
theorem C10_create_failure_preserves_signup_record_witness :
    (AuthController.verifySignupOTP stateDupPending "a@x.com" "123456" 500).2.status = 500 ∧
    (AuthController.verifySignupOTP stateDupPending "a@x.com" "123456" 500).2.success = false ∧
    (AuthController.verifySignupOTP stateDupPending "a@x.com" "123456" 500).1.signupOtps =
      stateDupPending.signupOtps ∧
    (AuthController.verifySignupOTP stateDupPending "a@x.com" "123456" 500).1.db =
      stateDupPending.db :=
  C10_create_failure_preserves_signup_record stateDupPending "a@x.com" "123456" 500
    { otp := "123456",
      userData := { email := "a@x.com", password := bcryptHash "pw123456", name := "a" },
      expiryTime := 600000, attempts := 0 }
    (by decide) (by decide) (by decide) (by decide) (by decide) (by decide) (by decide)

/-- Claim C7: federated login resolves the user by federatedId first; if
absent, by email, linking the federatedId onto the found record; only if both
lookups fail is a new user created with no password hash. A second login with
the same federatedId then yields the same user without creating a
duplicate. -/
theorem C7_federated_upsert_order :
    (∀ (db : UserDb) (p : GoogleProfile) (u : UserRec),
      User.findByGoogleId db p.id = some u →
        googleVerify db p = .ok (db, some u)) ∧
    (∀ (db : UserDb) (p : GoogleProfile) (u : UserRec),
      User.findByGoogleId db p.id = none →
      User.findByEmail db p.email = some u →
        ∃ db₂ u₂, googleVerify db p = .ok (db₂, some u₂) ∧
          u₂.id = u.id ∧ u₂.googleId = some p.id ∧
          db₂.users.length = db.users.length) ∧
    (∀ (db : UserDb) (p : GoogleProfile),
      User.findByGoogleId db p.id = none →
      User.findByEmail db p.email = none →
        ∃ db₂ u₂, googleVerify db p = .ok (db₂, some u₂) ∧
          u₂.password = none ∧ u₂.googleId = some p.id ∧
          db₂.users.length = db.users.length + 1 ∧
          googleVerify db₂ p = .ok (db₂, some u₂)) := by
  refine ⟨?_, ?_, ?_⟩
  · intro db p u hgid
    simp [googleVerify, hgid]
  · intro db p u hgid hemail
    have humem : u ∈ db.users := List.mem_of_find?_eq_some hemail
    have hsome : (db.users.find? (fun v => v.id == u.id)).isSome :=
      List.find?_isSome.mpr ⟨u, humem, by simp⟩
    obtain ⟨u₀, hu₀⟩ := Option.isSome_iff_exists.mp hsome
    have hid0 : u₀.id = u.id := by simpa using List.find?_some hu₀
    have hnone2 : db.users.find?
        (fun v => v.googleId == some p.id && !(v.id == u.id)) = none := by
      refine List.find?_eq_none.mpr ?_
      intro v hv hcontra
      simp only [Bool.and_eq_true] at hcontra
      exact (List.find?_eq_none.mp hgid v hv) hcontra.1
    have hupdate : User.update db u.id { googleId := some p.id } =
        .ok ({ db with users := db.users.map (fun v =>
                 if v.id == u.id then
                   User.applyUpdate u₀ { password := none, googleId := some p.id }
                 else v) },
             User.applyUpdate u₀ { password := none, googleId := some p.id }) := by
      simp [User.update, hu₀, hnone2]
    have hfind : User.findById
        { db with users := db.users.map (fun v =>
            if v.id == u.id then
              User.applyUpdate u₀ { password := none, googleId := some p.id }
            else v) } u.id =
        some (User.applyUpdate u₀ { password := none, googleId := some p.id }) := by
      simp only [User.findById]
      exact findUpdateById db.users u.id _ (by simp [User.applyUpdate, hid0]) hsome
    refine ⟨{ db with users := db.users.map (fun v =>
                if v.id == u.id then
                  User.applyUpdate u₀ { password := none, googleId := some p.id }
                else v) },
            User.applyUpdate u₀ { password := none, googleId := some p.id },
            ?_, ?_, ?_, ?_⟩
    · simp only [googleVerify, hgid, hemail, hupdate]
      rw [hfind]
    · simp [User.applyUpdate, hid0]
    · simp [User.applyUpdate]
    · simp
  · intro db p hgid hemail
    have he2 : db.users.find? (fun u => u.email == canonEmail p.email) = none := hemail
    have hg2 : db.users.find? (fun u => u.googleId == some p.id) = none := hgid
    have hcreate : User.create db
        { email := p.email, password := none, name := some p.displayName,
          googleId := some p.id } =
        .ok ({ users := db.users ++
                 [{ id := db.nextId, email := canonEmail p.email, password := none,
                    name := defaultName (some p.displayName) p.email,
                    googleId := some p.id }],
               nextId := db.nextId + 1 },
             { id := db.nextId, email := canonEmail p.email, password := none,
               name := defaultName (some p.displayName) p.email,
               googleId := some p.id }) := by
      simp [User.create, he2, hg2]
    have hgid2 : User.findByGoogleId
        { users := db.users ++
            [{ id := db.nextId, email := canonEmail p.email, password := none,
               name := defaultName (some p.displayName) p.email,
               googleId := some p.id }],
          nextId := db.nextId + 1 } p.id =
        some { id := db.nextId, email := canonEmail p.email, password := none,
               name := defaultName (some p.displayName) p.email,
               googleId := some p.id } := by
      simp only [User.findByGoogleId, List.find?_append, hg2]
      simp [List.find?]
    refine ⟨{ users := db.users ++
                [{ id := db.nextId, email := canonEmail p.email, password := none,
                   name := defaultName (some p.displayName) p.email,
                   googleId := some p.id }],
              nextId := db.nextId + 1 },
            { id := db.nextId, email := canonEmail p.email, password := none,
              name := defaultName (some p.displayName) p.email,
              googleId := some p.id },
            ?_, ?_, ?_, ?_, ?_⟩
    · simp [googleVerify, hgid, hemail, hcreate]
    · rfl
    · rfl
    · simp
    · simp [googleVerify, hgid2]

/-- Witness for C7 at concrete databases: link onto an existing password
account, then the create-then-reuse path from an empty database. -/
theorem C7_federated_upsert_order_witness :
    (∃ db₂ u₂, googleVerify dbA { id := "g1", email := "a@x.com", displayName := "A" } =
        .ok (db₂, some u₂) ∧
      u₂.id = userA.id ∧ u₂.googleId = some "g1" ∧
      db₂.users.length = dbA.users.length) ∧
    (∃ db₂ u₂, googleVerify { users := [], nextId := 1 }
        { id := "g2", email := "c@x.com", displayName := "C" } = .ok (db₂, some u₂) ∧
      u₂.password = none ∧ u₂.googleId = some "g2" ∧
      db₂.users.length = ({ users := [], nextId := 1 } : UserDb).users.length + 1 ∧
      googleVerify db₂ { id := "g2", email := "c@x.com", displayName := "C" } =
        .ok (db₂, some u₂)) := by
  constructor
  · exact C7_federated_upsert_order.2.1 dbA
      { id := "g1", email := "a@x.com", displayName := "A" } userA (by decide) (by decide)
  · exact C7_federated_upsert_order.2.2 { users := [], nextId := 1 }
      { id := "g2", email := "c@x.com", displayName := "C" } (by decide) (by decide)

/-- Claim C5 is refuted on its exactly-once component: after a successful
reset-OTP verification for `a@x.com`, two consecutive resetPassword calls
submitted as `" a@x.com "` both answer 200, because the clear step deletes
the lower-cased but untrimmed key and misses the record, which stays
verified. -/
theorem C5_counterexample :
    (AuthController.resetPassword stateResetVerified " a@x.com " "newpw" 0).2.status = 200 ∧
    (AuthController.resetPassword
        (AuthController.resetPassword stateResetVerified " a@x.com " "newpw" 0).1
        " a@x.com " "newpw2" 0).2.status = 200 := by
  decide

/-- Claim C5 amended: resetPassword fails 403 whenever the reset ledger lacks
an unexpired verified record for the canonical email; when the submitted
email has no leading or trailing whitespace (any letter case), after a
verified record exists exactly one resetPassword succeeds — persisting a
hash of the new password and clearing the record — and an immediate repeat
fails 403. (With surrounding whitespace the clear misses the record, per the
counterexample.) -/
theorem C5_reset_gate_and_single_use :
    (∀ (st : AuthState) (email pw : String) (now : Nat),
      ¬ email = "" → ¬ pw = "" →
      OtpService.isOTPVerified st.resetOtps (canonEmail email) now = false →
        (AuthController.resetPassword st email pw now).2.status = 403 ∧
        (AuthController.resetPassword st email pw now).2.success = false ∧
        (AuthController.resetPassword st email pw now).1 = st) ∧
    (∀ (st : AuthState) (email pw pw₂ : String) (now : Nat) (u : UserRec),
      jsTrim email = email →
      ¬ email = "" → ¬ pw = "" → ¬ pw₂ = "" →
      OtpService.isOTPVerified st.resetOtps (canonEmail email) now = true →
      User.findByEmail st.db (canonEmail email) = some u →
        (AuthController.resetPassword st email pw now).2.status = 200 ∧
        (AuthController.resetPassword st email pw now).2.success = true ∧
        ((AuthController.resetPassword st email pw now).1.db.users.find?
            (fun v => v.id == u.id)).map (fun v => v.password) =
          some (some (bcryptHash pw)) ∧
        (AuthController.resetPassword st email pw now).1.resetOtps.get (jsLower email) = none ∧
        (AuthController.resetPassword (AuthController.resetPassword st email pw now).1
            email pw₂ now).2.status = 403) := by
  constructor
  · intro st email pw now he hp hver
    have hb : (email == "") = false := by simp [he]
    have hbp : (pw == "") = false := by simp [hp]
    simp [AuthController.resetPassword, hb, hbp, hver]
  · intro st email pw pw₂ now u htrim he hp hp₂ hver hu
    have hkey : jsLower (canonEmail email) = jsLower email := by
      simp only [canonEmail, jsTrim_jsLower, htrim, jsLower_idem]
    have hb : (email == "") = false := by simp [he]
    have hbp : (pw == "") = false := by simp [hp]
    have hbp₂ : (pw₂ == "") = false := by simp [hp₂]
    have humem : u ∈ st.db.users := List.mem_of_find?_eq_some hu
    have hsome : (st.db.users.find? (fun v => v.id == u.id)).isSome :=
      List.find?_isSome.mpr ⟨u, humem, by simp⟩
    obtain ⟨u₀, hu₀⟩ := Option.isSome_iff_exists.mp hsome
    have hid0 : u₀.id = u.id := by simpa using List.find?_some hu₀
    have hupd : User.updatePassword st.db u.id pw =
        .ok ({ st.db with users := st.db.users.map (fun v =>
                 if v.id == u.id then
                   User.applyUpdate u₀ { password := some (bcryptHash pw), googleId := none }
                 else v) },
             User.applyUpdate u₀ { password := some (bcryptHash pw), googleId := none }) := by
      simp [User.updatePassword, User.update, hbp, hu₀]
    have main : AuthController.resetPassword st email pw now =
        ({ st with
             db := { st.db with users := st.db.users.map (fun v =>
                       if v.id == u.id then
                         User.applyUpdate u₀
                           { password := some (bcryptHash pw), googleId := none }
                       else v) },
             resetOtps := OtpService.clearOTP st.resetOtps email },
         { status := 200, success := true,
           message := "Password has been reset successfully. You can now login with your new password." }) := by
      simp only [AuthController.resetPassword, hb, hbp, hver, hu, hupd]
      simp
    have hfind : (st.db.users.map (fun v =>
          if v.id == u.id then
            User.applyUpdate u₀ { password := some (bcryptHash pw), googleId := none }
          else v)).find? (fun v => v.id == u.id) =
        some (User.applyUpdate u₀ { password := some (bcryptHash pw), googleId := none }) :=
      findUpdateById st.db.users u.id _ (by simp [User.applyUpdate, hid0]) hsome
    have hver2 : OtpService.isOTPVerified (OtpService.clearOTP st.resetOtps email)
        (canonEmail email) now = false := by
      simp [OtpService.isOTPVerified, OtpService.clearOTP, OtpMap.get, OtpMap.del, hkey]
    refine ⟨?_, ?_, ?_, ?_, ?_⟩
    · rw [main]
    · rw [main]
    · rw [main]
      simp only [hfind]
      simp [User.applyUpdate]
    · rw [main]
      simp [OtpService.clearOTP, OtpMap.get, OtpMap.del]
    · rw [main]
      simp [AuthController.resetPassword, hb, hbp₂, hver2]

/-- Witness for the amended C5: the gate rejects with an empty ledger, and
the single-use sequence on the verified fixture state with a mixed-case,
whitespace-free submission. -/
theorem C5_reset_gate_and_single_use_witness :
    ((AuthController.resetPassword stateA "a@x.com" "newpw" 0).2.status = 403 ∧
     (AuthController.resetPassword stateA "a@x.com" "newpw" 0).2.success = false ∧
     (AuthController.resetPassword stateA "a@x.com" "newpw" 0).1 = stateA) ∧
    ((AuthController.resetPassword stateResetVerified "A@x.com" "newpw" 0).2.status = 200 ∧
     (AuthController.resetPassword stateResetVerified "A@x.com" "newpw" 0).2.success = true ∧
     ((AuthController.resetPassword stateResetVerified "A@x.com" "newpw" 0).1.db.users.find?
         (fun v => v.id == userA.id)).map (fun v => v.password) =
       some (some (bcryptHash "newpw")) ∧
     (AuthController.resetPassword stateResetVerified "A@x.com" "newpw" 0).1.resetOtps.get
         (jsLower "A@x.com") = none ∧
     (AuthController.resetPassword
         (AuthController.resetPassword stateResetVerified "A@x.com" "newpw" 0).1
         "A@x.com" "newpw2" 0).2.status = 403) := by
  constructor
  · exact C5_reset_gate_and_single_use.1 stateA "a@x.com" "newpw" 0
      (by decide) (by decide) (by decide)
  · exact C5_reset_gate_and_single_use.2 stateResetVerified "A@x.com" "newpw" "newpw2" 0
      userA (by decide) (by decide) (by decide) (by decide) (by decide) (by decide)
